import Mathlib

/-!
Verification of the Newznab mock server (`newznab_mock.py`).

The file shallowly embeds the request-handling core of the server:
the MD5-based identifier scheme (`get_guid_from_filename`), the category
resolver (`get_named_categories` / `get_category_name`), the query matcher
and pagination of `handle_search`, the file-retrieval logic of
`handle_get`, the API-key gate (`verify_api_key`) and the dispatcher
(`api`).  Machine integers are modelled as `Nat` with explicit reduction
modulo `2^32`; query parameters are `Option String`; the filesystem is an
explicit environment record; an uncaught Python exception is modelled as a
distinguished `fault` result.
-/

namespace NewznabMock

/-! ## 32-bit word arithmetic (Python ints truncated as in MD5) -/

def mask32 : Nat := 4294967296

def add32 (a b : Nat) : Nat := (a + b) % mask32

def not32 (a : Nat) : Nat := Nat.xor a 4294967295

def rotl32 (s a : Nat) : Nat :=
  ((a * 2 ^ s) % mask32) + a / 2 ^ (32 - s)

/-! ## UTF-8 encoding of a string (Python `str.encode('utf-8')`) -/

def utf8EncodeCharN (c : Char) : List Nat :=
  let v := c.toNat
  if v < 128 then [v]
  else if v < 2048 then [192 + v / 64, 128 + v % 64]
  else if v < 65536 then [224 + v / 4096, 128 + v / 64 % 64, 128 + v % 64]
  else [240 + v / 262144, 128 + v / 4096 % 64, 128 + v / 64 % 64, 128 + v % 64]

def utf8Bytes (s : String) : List Nat :=
  s.data.flatMap utf8EncodeCharN

/-! ## MD5 (as used by `hashlib.md5(...).hexdigest()`) -/

def md5K : List Nat :=
  [3614090360, 3905402710, 606105819, 3250441966, 4118548399, 1200080426,
   2821735955, 4249261313, 1770035416, 2336552879, 4294925233, 2304563134,
   1804603682, 4254626195, 2792965006, 1236535329, 4129170786, 3225465664,
   643717713, 3921069994, 3593408605, 38016083, 3634488961, 3889429448,
   568446438, 3275163606, 4107603335, 1163531501, 2850285829, 4243563512,
   1735328473, 2368359562, 4294588738, 2272392833, 1839030562, 4259657740,
   2763975236, 1272893353, 4139469664, 3200236656, 681279174, 3936430074,
   3572445317, 76029189, 3654602809, 3873151461, 530742520, 3299628645,
   4096336452, 1126891415, 2878612391, 4237533241, 1700485571, 2399980690,
   4293915773, 2240044497, 1873313359, 4264355552, 2734768916, 1309151649,
   4149444226, 3174756917, 718787259, 3951481745]

def md5S : List Nat :=
  [7, 12, 17, 22, 7, 12, 17, 22, 7, 12, 17, 22, 7, 12, 17, 22,
   5, 9, 14, 20, 5, 9, 14, 20, 5, 9, 14, 20, 5, 9, 14, 20,
   4, 11, 16, 23, 4, 11, 16, 23, 4, 11, 16, 23, 4, 11, 16, 23,
   6, 10, 15, 21, 6, 10, 15, 21, 6, 10, 15, 21, 6, 10, 15, 21]

/-- MD5 padding: append `0x80`, zero bytes to 56 mod 64, then the bit
length as a 64-bit little-endian integer. -/
def md5Pad (msg : List Nat) : List Nat :=
  let len := msg.length
  let zeros := (55 + 64 - len % 64) % 64
  let bitLen := (len * 8) % 2 ^ 64
  msg ++ [128] ++ List.replicate zeros 0 ++
    (List.range 8).map (fun i => bitLen / 2 ^ (8 * i) % 256)

/-- Split the padded message into 16-word blocks (32-bit little-endian). -/
def md5Words (bytes : List Nat) : List Nat :=
  match bytes with
  | b0 :: b1 :: b2 :: b3 :: rest =>
      (b0 + 256 * b1 + 65536 * b2 + 16777216 * b3) :: md5Words rest
  | _ => []

def md5F (i b c d : Nat) : Nat :=
  if i < 16 then Nat.lor (Nat.land b c) (Nat.land (not32 b) d)
  else if i < 32 then Nat.lor (Nat.land d b) (Nat.land (not32 d) c)
  else if i < 48 then Nat.xor b (Nat.xor c d)
  else Nat.xor c (Nat.lor b (not32 d))

def md5G (i : Nat) : Nat :=
  if i < 16 then i
  else if i < 32 then (5 * i + 1) % 16
  else if i < 48 then (3 * i + 5) % 16
  else (7 * i) % 16

/-- One MD5 round step on the state `(a, b, c, d)` with message block `m`. -/
def md5Step (m : List Nat) (st : Nat × Nat × Nat × Nat) (i : Nat) :
    Nat × Nat × Nat × Nat :=
  let (a, b, c, d) := st
  let f := add32 (add32 (md5F i b c d) a)
    (add32 (md5K.getD i 0) (m.getD (md5G i) 0))
  (d, add32 b (rotl32 (md5S.getD i 0) f), b, c)

/-- MD5 compression of one 16-word block into the running state. -/
def md5Block (st : Nat × Nat × Nat × Nat) (m : List Nat) :
    Nat × Nat × Nat × Nat :=
  let (a0, b0, c0, d0) := st
  let (a, b, c, d) := (List.range 64).foldl (md5Step m) (a0, b0, c0, d0)
  (add32 a0 a, add32 b0 b, add32 c0 c, add32 d0 d)

def md5Chunks (words : List Nat) : List (List Nat) :=
  match words with
  | w0 :: w1 :: w2 :: w3 :: w4 :: w5 :: w6 :: w7 ::
    w8 :: w9 :: w10 :: w11 :: w12 :: w13 :: w14 :: w15 :: rest =>
      [w0, w1, w2, w3, w4, w5, w6, w7,
       w8, w9, w10, w11, w12, w13, w14, w15] :: md5Chunks rest
  | _ => []

def hexDigit (n : Nat) : Char :=
  if n < 10 then Char.ofNat (48 + n) else Char.ofNat (87 + n)

/-- Lowercase hex of one 32-bit word, serialized little-endian byte first. -/
def wordHex (w : Nat) : List Char :=
  (List.range 4).flatMap
    (fun i => [hexDigit (w / 2 ^ (8 * i) % 256 / 16),
               hexDigit (w / 2 ^ (8 * i) % 16)])

/-- MD5 digest of a byte list, as a lowercase hex string. -/
def md5Hex (msg : List Nat) : String :=
  let blocks := md5Chunks (md5Words (md5Pad msg))
  let (a, b, c, d) :=
    blocks.foldl md5Block (1732584193, 4023233417, 2562383102, 271733878)
  ⟨wordHex a ++ wordHex b ++ wordHex c ++ wordHex d⟩

/-- `get_guid_from_filename`: MD5 hash of the NZB filename (UTF-8 encoded),
used as GUID (source lines 90–92). -/
def get_guid_from_filename (filename : String) : String :=
  md5Hex (utf8Bytes filename)

/-! ## Python string primitives (ASCII fragment)

These model the Python builtins used by the handlers: `str.lower`,
`str.split()` (whitespace), `str.split(',')`, the `in` substring operator,
`int(...)` and slicing.  Unicode-specific behaviour (non-ASCII case
mapping, Unicode digits and spaces, underscores in numeric literals) is
outside the modelled fragment. -/

def pyWhitespace : List Char := [' ', '\t', '\n', '\r', '\x0b', '\x0c']

def lowerChar (c : Char) : Char :=
  if 'A' ≤ c ∧ c ≤ 'Z' then Char.ofNat (c.toNat + 32) else c

/-- `str.lower()` on the ASCII fragment. -/
def lowerStr (s : String) : String := ⟨s.data.map lowerChar⟩

/-- Does the character list start with `n`? (helper for the `in` operator) -/
def startsWithL : List Char → List Char → Bool
  | [], _ => true
  | _ :: _, [] => false
  | a :: as, b :: bs => a == b && startsWithL as bs

/-- Python's substring operator `needle in hay`. -/
def containsSub (needle : List Char) : List Char → Bool
  | [] => startsWithL needle []
  | c :: rest => startsWithL needle (c :: rest) || containsSub needle rest

/-- Helper for `str.split()`: split on whitespace runs, no empty pieces. -/
def splitWsAux : List Char → List Char → List String
  | [], acc => if acc.isEmpty then [] else [⟨acc.reverse⟩]
  | c :: rest, acc =>
    if pyWhitespace.contains c then
      if acc.isEmpty then splitWsAux rest []
      else ⟨acc.reverse⟩ :: splitWsAux rest []
    else splitWsAux rest (c :: acc)

/-- Python `str.split()` with no separator argument. -/
def pySplitWs (s : String) : List String := splitWsAux s.data []

/-- Helper for `str.split(',')`: split on every comma, keeping empties. -/
def splitCommaAux : List Char → List Char → List String
  | [], acc => [⟨acc.reverse⟩]
  | c :: rest, acc =>
    if c == ',' then ⟨acc.reverse⟩ :: splitCommaAux rest []
    else splitCommaAux rest (c :: acc)

/-- Python `str.split(',')`. -/
def pySplitComma (s : String) : List String := splitCommaAux s.data []

/-- The punctuation set of the regex `[,.!?;:"\'-]` in `handle_search`. -/
def queryPunct : List Char :=
  [',', '.', '!', '?', ';', ':', Char.ofNat 34, Char.ofNat 39, '-']

/-- `re.sub(r'[,.!?;:"\'-]', ' ', query)`. -/
def stripPunct (s : String) : String :=
  ⟨s.data.map (fun c => if queryPunct.contains c then ' ' else c)⟩

def pyStrip (cs : List Char) : List Char :=
  ((cs.dropWhile pyWhitespace.contains).reverse.dropWhile
    pyWhitespace.contains).reverse

def digitsToNat (cs : List Char) : Nat :=
  cs.foldl (fun n c => 10 * n + (c.toNat - 48)) 0

/-- Python `int(s)` for a string argument: strips whitespace, optional
sign, decimal digits; any other input raises `ValueError`, modelled as
`Except.error` carrying the interpreter's message. -/
def pyInt (s : String) : Except String Int :=
  let cs := pyStrip s.data
  let signed : Bool × List Char :=
    match cs with
    | '+' :: rest => (false, rest)
    | '-' :: rest => (true, rest)
    | _ => (false, cs)
  if !signed.2.isEmpty && signed.2.all Char.isDigit then
    .ok (if signed.1 then -(digitsToNat signed.2 : Int) else digitsToNat signed.2)
  else
    .error ("invalid literal for int() with base 10: '" ++ s ++ "'")

/-- `int(i)` on the digit-string category ids of the numeric category
convention (Python would raise on other inputs, which the category claims
do not cover). -/
def pyIntNat (s : String) : Nat := digitsToNat s.data

/-- Adjust one slice endpoint the way Python does for `xs[a:b]`:
negative indices count from the end, then both are clamped to `[0, n]`. -/
def pySliceIdx (n : Nat) (i : Int) : Nat :=
  if i < 0 then (i + n).toNat else min i.toNat n

/-- Python list slicing `xs[a:b]`. -/
def pySlice {α : Type} (xs : List α) (a b : Int) : List α :=
  let i := pySliceIdx xs.length a
  let j := pySliceIdx xs.length b
  (xs.drop i).take (j - i)

/-! ## Data model and environment -/

/-- One catalog entry of `config["nzbs_data"]`, with the fields the
request-handling claims depend on; categories are normalized to a list of
strings as in §3 of the spec (`build_item_xml` wraps a scalar). -/
structure Item where
  title : String
  filename : String
  categories : List String
  deriving DecidableEq

/-- The process-wide `config` dict, populated once in `main`. The loaded
category CSV becomes a partial map from id to display name. -/
structure Config where
  api_key : String
  nzb_path : String
  nzbs_data : List Item
  categories : String → Option String

/-- The filesystem as seen by `handle_get`: `os.path.isfile` and the
outcome of opening and reading a path (`Except.error` models a raised
`IOError`/`OSError` whose message is the exception text). -/
structure Fs where
  isfile : String → Bool
  readFile : String → Except String String

/-- The query parameters of one request (`request.args`); `none` means
the parameter is absent. -/
structure Request where
  apikey : Option String
  t : Option String
  q : Option String
  cat : Option String
  limit : Option String
  offset : Option String
  id : Option String

/-- The `item` elements rendered into the channel plus the `offset` and
`total` attributes of the `newznab:response` element. -/
structure SearchDoc where
  rspOffset : Int
  total : Nat
  items : List Item
  deriving DecidableEq

/-- Observable outcome of one request: an `<error code description>`
document, a search result document, a served NZB file (`send_file` with
the given download name), or an uncaught Python exception propagating out
of the handler (Flask then produces a generic 500 fault). -/
inductive ApiResult where
  | errorDoc (code : Nat) (description : String)
  | searchDoc (doc : SearchDoc)
  | fileDoc (filename : String)
  | fault (message : String)
  deriving DecidableEq

def isErrorDoc : ApiResult → Bool
  | .errorDoc _ _ => true
  | _ => false

/-! ## Handlers (source lines 63–70, 72–77, 176–189, 191–230, 270–278,
291–327) -/

/-- `verify_api_key` (lines 72–77): `if not api_key or api_key !=
config["api_key"]` — a missing or empty parameter is falsy. -/
def verify_api_key (cfg : Config) (apikey : Option String) : Bool :=
  match apikey with
  | none => false
  | some s => if s == "" || s != cfg.api_key then false else true

/-- `get_category_name` (lines 94–96). -/
def get_category_name (cfg : Config) (category_id : String) : String :=
  (cfg.categories category_id).getD ("Category " ++ category_id)

/-- `get_named_categories` (lines 63–70): drop every id that is the
string-rendered implied parent (`str(1000*divmod(int(i),1000)[0])`) of
some id in the list with nonzero remainder, then name the rest. -/
def get_named_categories (cfg : Config) (categories : List String) : List String :=
  let child_parents :=
    (categories.filter (fun i => pyIntNat i % 1000 > 0)).map
      (fun i => toString (1000 * (pyIntNat i / 1000)))
  (categories.filter (fun c => !child_parents.contains c)).map
    (get_category_name cfg)

/-- Query tokenization of `handle_search` (lines 199–203). -/
def queryTerms (query : String) : List String :=
  if query == "" then []
  else
    (pySplitWs (stripPunct query)).filterMap
      (fun term => if term == "" then none else some (lowerStr term))

/-- The text filter of the match loop (lines 210–214). -/
def title_matches (query_terms : List String) (item : Item) : Bool :=
  if !query_terms.isEmpty then
    query_terms.all (fun term => containsSub term.data (lowerStr item.title).data)
  else true

/-- The category filter of the match loop (lines 216–224). -/
def category_matches (cat : String) (item : Item) : Bool :=
  if cat != "" then
    let cat_list := pySplitComma cat
    item.categories.any (fun c => cat_list.contains c)
  else true

/-- One iteration of the match loop (lines 207–227): `match` stays true
iff both active filters pass. -/
def item_matches (query_terms : List String) (cat : String) (item : Item) : Bool :=
  title_matches query_terms item && category_matches cat item

/-- The `results` list of `handle_search` (lines 206–227). -/
def search_matches (cfg : Config) (query cat : String) : List Item :=
  cfg.nzbs_data.filter (item_matches (queryTerms query) cat)

/-- `int(request.args.get(name, default))`: an absent parameter yields the
integer default without parsing; a present one goes through `int(...)`. -/
def parseIntParam (p : Option String) (dflt : Int) : Except String Int :=
  match p with
  | none => .ok dflt
  | some s => pyInt s

/-- `handle_search` (lines 191–289), with the XML channel boilerplate
abstracted to the `SearchDoc` observables.  A `ValueError` from `int()`
on `limit` (evaluated first, line 195) or `offset` (line 196) escapes the
handler uncaught. -/
def handle_search (cfg : Config) (req : Request) : ApiResult :=
  let query := req.q.getD ""
  let cat := req.cat.getD ""
  match parseIntParam req.limit 100 with
  | .error e => .fault e
  | .ok limit =>
    match parseIntParam req.offset 0 with
    | .error e => .fault e
    | .ok offset =>
      let results := search_matches cfg query cat
      let paginated_results := pySlice results offset (offset + limit)
      .searchDoc ⟨offset, results.length, paginated_results⟩

/-- `os.path.join` for the path shapes the server uses. -/
def pyPathJoin (p f : String) : String :=
  if f.startsWith "/" then f
  else if p == "" then f
  else if p.endsWith "/" then p ++ f
  else p ++ "/" ++ f

/-- The linear scan of `handle_get` (lines 299–305): first item whose
computed GUID equals the requested id, yielding its filename. -/
def find_nzb_filename (nzbs : List Item) (nzb_id : String) : Option String :=
  match nzbs with
  | [] => none
  | item :: rest =>
    if get_guid_from_filename item.filename == nzb_id then some item.filename
    else find_nzb_filename rest nzb_id

/-- `handle_get` (lines 291–327).  `if not nzb_filename` (line 307) is a
truthiness test: it fires both when no entry matched (`None`) and when
the matched entry's filename is the empty string. -/
def handle_get (cfg : Config) (fs : Fs) (req : Request) : ApiResult :=
  let nzb_id := req.id.getD ""
  if nzb_id == "" then .errorDoc 200 "No NZB ID specified"
  else
    match find_nzb_filename cfg.nzbs_data nzb_id with
    | none => .errorDoc 300 ("NZB with ID " ++ nzb_id ++ " not found")
    | some nzb_filename =>
      if nzb_filename == "" then
        .errorDoc 300 ("NZB with ID " ++ nzb_id ++ " not found")
      else
        let nzb_path := pyPathJoin cfg.nzb_path nzb_filename
        if !fs.isfile nzb_path then
          .errorDoc 300 ("NZB file " ++ nzb_filename ++ " not found on disk")
        else
          match fs.readFile nzb_path with
          | .error e => .errorDoc 900 ("Error reading NZB file: " ++ e)
          | .ok _ => .fileDoc nzb_filename

/-- The `/api` route (lines 176–189): API-key gate then dispatch on `t`. -/
def api (cfg : Config) (fs : Fs) (req : Request) : ApiResult :=
  if !verify_api_key cfg req.apikey then .errorDoc 100 "Invalid API key"
  else
    let t := req.t.getD ""
    if t == "search" || t == "tvsearch" || t == "movie" then
      handle_search cfg req
    else if t == "get" then handle_get cfg fs req
    else .errorDoc 203 ("Function not available: " ++ t)

/-! ## Concrete fixtures used by witnesses -/

def itemA : Item := ⟨"Some Show S01E01 1080p", "a.nzb", ["5000", "5040"]⟩

def itemB : Item := ⟨"Another Movie 2024", "b.nzb", ["2000"]⟩

def cfgEx : Config :=
  ⟨"mock_api_key", "/nzbs", [itemA, itemB],
    fun s => if s = "5040" then some "TV HD"
      else if s = "5000" then some "TV"
      else if s = "2000" then some "Movies" else none⟩

def fsEx : Fs :=
  ⟨fun p => p == "/nzbs/a.nzb",
   fun p => if p == "/nzbs/a.nzb" then .ok "<nzb/>" else .error "boom"⟩

def mkReq (apikey t q cat limit offset id : Option String) : Request :=
  ⟨apikey, t, q, cat, limit, offset, id⟩

def mkItemN (n : Nat) : Item :=
  ⟨"Title " ++ toString n, "file" ++ toString n ++ ".nzb", ["2000"]⟩

/-- A ten-entry catalog for the pagination example of the spec. -/
def cfgTen : Config :=
  ⟨"mock_api_key", "/nzbs", (List.range 10).map mkItemN, fun _ => none⟩

def cfgEmptyKey : Config := ⟨"", "/nzbs", [itemA], fun _ => none⟩

def reqBadOffset : Request :=
  mkReq (some "mock_api_key") (some "tvsearch") none none none (some "x1") none

def reqGetEx : Request :=
  mkReq (some "mock_api_key") (some "get") none none none none (some "zzz")

/-! ## Validation of the MD5 embedding against RFC 1321 / `hashlib`
test vectors -/

set_option maxRecDepth 40000

example : md5Hex [] = "d41d8cd98f00b204e9800998ecf8427e" := by rfl

example : get_guid_from_filename "abc" = "900150983cd24fb0d6963f7d28e17f72" := by rfl

/-! ## Helper lemmas -/

theorem startsWithL_iff (n h : List Char) :
    startsWithL n h = true ↔ ∃ r, h = n ++ r := by
  induction n generalizing h with
  | nil => simp [startsWithL]
  | cons a as ih =>
    cases h with
    | nil => simp [startsWithL]
    | cons b bs =>
      simp only [startsWithL, Bool.and_eq_true, beq_iff_eq, ih,
        List.cons_append, List.cons.injEq]
      constructor
      · rintro ⟨rfl, r, rfl⟩
        exact ⟨r, rfl, rfl⟩
      · rintro ⟨r, rfl, rfl⟩
        exact ⟨rfl, r, rfl⟩

theorem containsSub_iff (n h : List Char) :
    containsSub n h = true ↔ ∃ l r, h = l ++ n ++ r := by
  induction h with
  | nil =>
    simp only [containsSub, startsWithL_iff]
    constructor
    · rintro ⟨r, hr⟩
      exact ⟨[], r, by simp [hr]⟩
    · rintro ⟨l, r, hr⟩
      rcases List.append_eq_nil.mp (List.append_eq_nil.mp hr.symm).1 with ⟨h1, h2⟩
      exact ⟨[], by simp [h2]⟩
  | cons c rest ih =>
    simp only [containsSub, Bool.or_eq_true, startsWithL_iff, ih]
    constructor
    · rintro (⟨r, hr⟩ | ⟨l, r, hr⟩)
      · exact ⟨[], r, by simp [hr]⟩
      · exact ⟨c :: l, r, by simp [hr]⟩
    · rintro ⟨l, r, hr⟩
      cases l with
      | nil => exact Or.inl ⟨r, by simpa using hr⟩
      | cons d l' =>
        rcases List.cons.injEq _ _ _ _ ▸ hr with ⟨-, hr'⟩
        exact Or.inr ⟨l', r, hr'⟩

theorem find_nzb_filename_eq_none (nzbs : List Item) (i : String)
    (h : ∀ e ∈ nzbs, get_guid_from_filename e.filename ≠ i) :
    find_nzb_filename nzbs i = none := by
  induction nzbs with
  | nil => rfl
  | cons a t ih =>
    simp only [find_nzb_filename]
    rw [if_neg (by simpa using h a (List.mem_cons_self a t))]
    exact ih fun e he => h e (List.mem_cons_of_mem a he)

theorem pySlice_nat {α : Type} (xs : List α) (a b : Nat) :
    pySlice xs (a : Int) (b : Int) = (xs.drop a).take (b - a) := by
  simp only [pySlice, pySliceIdx]
  rw [if_neg (by omega), if_neg (by omega), Int.toNat_natCast, Int.toNat_natCast]
  rcases le_or_lt a xs.length with ha | ha
  · rw [min_eq_left ha]
    rcases le_or_lt b xs.length with hb | hb
    · rw [min_eq_left hb]
    · rw [min_eq_right hb.le]
      rw [List.take_of_length_le (by simp),
        List.take_of_length_le (by simp; omega)]
  · rw [min_eq_right ha.le]
    rw [List.drop_eq_nil_of_le (le_refl xs.length), List.drop_eq_nil_of_le ha.le]
    simp

/-! ## Claims -/

/-- C1: for a catalog entry whose filename is unique in the catalog, and
with the MD5 identifiers collision-free across the catalog's filenames
(the spec's standing idealization of the hash as collision-resistant),
the linear scan of `handle_get` on the identifier computed from the
entry's filename (hex MD5, exact case-sensitive string comparison)
yields exactly that entry: it returns the entry's filename, and every
catalog entry whose computed identifier matches the scanned one is the
entry itself.  The identifier function is a pure Lean function of the
filename, so determinism within and across runs holds by construction. -/
theorem guid_roundtrip (nzbs : List Item) (e : Item)
    (he : e ∈ nzbs)
    (huniq : ∀ a ∈ nzbs, a.filename = e.filename → a = e)
    (hinj : ∀ a ∈ nzbs, ∀ b ∈ nzbs,
      get_guid_from_filename a.filename = get_guid_from_filename b.filename →
      a.filename = b.filename) :
    find_nzb_filename nzbs (get_guid_from_filename e.filename) =
      some e.filename
    ∧ ∀ a ∈ nzbs,
        get_guid_from_filename a.filename = get_guid_from_filename e.filename →
        a = e := by
  constructor
  · clear huniq
    induction nzbs with
    | nil => cases he
    | cons a t ih =>
      simp only [find_nzb_filename]
      by_cases hg : get_guid_from_filename a.filename =
          get_guid_from_filename e.filename
      · rw [if_pos (by simpa using hg)]
        rw [hinj a (List.mem_cons_self a t) e he hg]
      · rw [if_neg (by simpa using hg)]
        have he' : e ∈ t := by
          rcases List.mem_cons.mp he with rfl | h
          · exact absurd rfl hg
          · exact h
        exact ih he' fun x hx y hy =>
          hinj x (List.mem_cons_of_mem a hx) y (List.mem_cons_of_mem a hy)
  · intro a ha hg
    exact huniq a ha (hinj a ha e he hg)

theorem guid_roundtrip_witness :
    (itemA ∈ cfgEx.nzbs_data
      ∧ (∀ a ∈ cfgEx.nzbs_data, a.filename = itemA.filename → a = itemA)
      ∧ (∀ a ∈ cfgEx.nzbs_data, ∀ b ∈ cfgEx.nzbs_data,
          get_guid_from_filename a.filename = get_guid_from_filename b.filename →
          a.filename = b.filename))
    ∧ (find_nzb_filename cfgEx.nzbs_data
        (get_guid_from_filename itemA.filename) = some itemA.filename
      ∧ ∀ a ∈ cfgEx.nzbs_data,
          get_guid_from_filename a.filename =
            get_guid_from_filename itemA.filename → a = itemA) := by
  have h1 : itemA ∈ cfgEx.nzbs_data := by decide
  have h2 : ∀ a ∈ cfgEx.nzbs_data, a.filename = itemA.filename → a = itemA := by
    decide
  have h3 : ∀ a ∈ cfgEx.nzbs_data, ∀ b ∈ cfgEx.nzbs_data,
      get_guid_from_filename a.filename = get_guid_from_filename b.filename →
      a.filename = b.filename := by decide
  exact ⟨⟨h1, h2, h3⟩, guid_roundtrip cfgEx.nzbs_data itemA h1 h2 h3⟩

/-- C2: an entry passes the text filter of `handle_search` iff every
token produced by the tokenization (punctuation to whitespace, split on
whitespace, lower-cased, empty tokens dropped) occurs as a substring of
the entry's lower-cased title; the empty (or absent, which defaults to
empty) query yields no tokens and applies no text filter. -/
theorem search_text_filter (q : String) (item : Item) :
    (title_matches (queryTerms q) item = true ↔
      ∀ t ∈ queryTerms q, ∃ l r,
        (lowerStr item.title).data = l ++ t.data ++ r)
    ∧ (q = "" → title_matches (queryTerms q) item = true) := by
  constructor
  · unfold title_matches
    by_cases hq : (queryTerms q).isEmpty = true
    · rw [List.isEmpty_iff] at hq
      simp [hq]
    · simp only [Bool.not_eq_true] at hq
      simp only [hq, Bool.not_false, if_true, List.all_eq_true]
      exact ⟨fun h t ht => (containsSub_iff _ _).mp (h t ht),
             fun h t ht => (containsSub_iff _ _).mpr (h t ht)⟩
  · intro h
    subst h
    rfl

theorem search_text_filter_witness :
    (title_matches (queryTerms "The.Show S01") itemA = true ↔
      ∀ t ∈ queryTerms "The.Show S01", ∃ l r,
        (lowerStr itemA.title).data = l ++ t.data ++ r)
    ∧ ("The.Show S01" = "" →
        title_matches (queryTerms "The.Show S01") itemA = true) :=
  search_text_filter "The.Show S01" itemA

theorem child_parents_contains (cats : List String) (c : String) :
    ((cats.filter (fun i => pyIntNat i % 1000 > 0)).map
      (fun i => toString (1000 * (pyIntNat i / 1000)))).contains c =
    cats.any (fun i => decide (pyIntNat i % 1000 > 0) &&
      (c == toString (1000 * (pyIntNat i / 1000)))) := by
  rw [Bool.eq_iff_iff]
  simp only [List.elem_iff, List.mem_map, List.mem_filter, List.any_eq_true,
    Bool.and_eq_true, beq_iff_eq, decide_eq_true_eq]
  constructor
  · rintro ⟨i, ⟨hi, hrem⟩, rfl⟩
    exact ⟨i, hi, hrem, rfl⟩
  · rintro ⟨i, hi, hrem, rfl⟩
    exact ⟨i, ⟨hi, hrem⟩, rfl⟩

/-- C3: the category resolver names an id iff that id is not the
string-rendered implied parent (`floor(id/1000)*1000`) of some id in the
same input with nonzero remainder mod 1000; on `["2000", "2010"]` only
the name of `"2010"` is reported, on `["2000"]` alone the name of
`"2000"`; an id absent from the loaded map gets the synthesized name
`"Category {id}"`.  The hypothesis restricts the input to decimal-digit
id strings, the domain on which the embedding of Python's `int(...)` is
faithful (on other inputs the interpreter would raise). -/
theorem named_categories_spec (cfg : Config) (cats : List String)
    (cid : String)
    (_hdigits : ∀ s ∈ cats, s ≠ "" ∧ s.data.all Char.isDigit = true) :
    get_named_categories cfg cats =
      (cats.filter (fun c => !cats.any (fun i =>
        decide (pyIntNat i % 1000 > 0) &&
          (c == toString (1000 * (pyIntNat i / 1000)))))).map
        (get_category_name cfg)
    ∧ get_named_categories cfg ["2000", "2010"] = [get_category_name cfg "2010"]
    ∧ get_named_categories cfg ["2000"] = [get_category_name cfg "2000"]
    ∧ (cfg.categories cid = none →
        get_category_name cfg cid = "Category " ++ cid) := by
  refine ⟨?_, by rfl, by rfl, ?_⟩
  · simp only [get_named_categories]
    refine congrArg (List.map (get_category_name cfg)) (List.filter_congr ?_)
    intro c _
    rw [child_parents_contains]
  · intro h
    unfold get_category_name
    rw [h]
    rfl

theorem named_categories_spec_witness :
    (∀ s ∈ ["2000", "2010"], s ≠ "" ∧ s.data.all Char.isDigit = true)
    ∧ (get_named_categories cfgEx ["2000", "2010"] =
        ((["2000", "2010"] : List String).filter (fun c =>
          !(["2000", "2010"] : List String).any (fun i =>
            decide (pyIntNat i % 1000 > 0) &&
              (c == toString (1000 * (pyIntNat i / 1000)))))).map
          (get_category_name cfgEx)
      ∧ get_named_categories cfgEx ["2000", "2010"] =
          [get_category_name cfgEx "2010"]
      ∧ get_named_categories cfgEx ["2000"] = [get_category_name cfgEx "2000"]
      ∧ (cfgEx.categories "9999" = none →
          get_category_name cfgEx "9999" = "Category " ++ "9999")) := by
  have hd : ∀ s ∈ ["2000", "2010"], s ≠ "" ∧ s.data.all Char.isDigit = true := by
    decide
  exact ⟨hd, named_categories_spec cfgEx ["2000", "2010"] "9999" hd⟩

/-- C4: with non-negative integer `offset` and `limit` (defaults 0 and
100 when the parameter is absent), the rendered items of `handle_search`
are exactly the slice `[offset, offset+limit)` of the matched sequence
taken after filtering, the `total` attribute reports the number of
matches before pagination, and an offset at or beyond the match count
yields an empty item list rather than an error. -/
theorem pagination_spec (cfg : Config) (ak tOpt q cat i ls os : Option String)
    (limit offset : Nat)
    (hl : parseIntParam ls 100 = .ok (limit : Int))
    (ho : parseIntParam os 0 = .ok (offset : Int)) :
    handle_search cfg (mkReq ak tOpt q cat ls os i) =
      .searchDoc ⟨(offset : Int),
        (search_matches cfg (q.getD "") (cat.getD "")).length,
        ((search_matches cfg (q.getD "") (cat.getD "")).drop offset).take limit⟩
    ∧ ((search_matches cfg (q.getD "") (cat.getD "")).length ≤ offset →
        ((search_matches cfg (q.getD "") (cat.getD "")).drop offset).take
          limit = []) := by
  constructor
  · simp only [handle_search, mkReq, hl, ho]
    rw [← Nat.cast_add, pySlice_nat, Nat.add_sub_cancel_left]
  · intro h
    rw [List.drop_eq_nil_of_le h]
    simp

theorem pagination_spec_witness :
    (parseIntParam (some "5") 100 = .ok ((5 : Nat) : Int)
      ∧ parseIntParam (some "20") 0 = .ok ((20 : Nat) : Int))
    ∧ (handle_search cfgTen (mkReq none none none none (some "5") (some "20")
        none) =
        .searchDoc ⟨((20 : Nat) : Int),
          (search_matches cfgTen ((none : Option String).getD "")
            ((none : Option String).getD "")).length,
          ((search_matches cfgTen ((none : Option String).getD "")
            ((none : Option String).getD "")).drop 20).take 5⟩
      ∧ ((search_matches cfgTen ((none : Option String).getD "")
            ((none : Option String).getD "")).length ≤ 20 →
          ((search_matches cfgTen ((none : Option String).getD "")
            ((none : Option String).getD "")).drop 20).take 5 = [])) := by
  have hl : parseIntParam (some "5") 100 = .ok ((5 : Nat) : Int) := by rfl
  have ho : parseIntParam (some "20") 0 = .ok ((20 : Nat) : Int) := by rfl
  exact ⟨⟨hl, ho⟩,
    pagination_spec cfgTen none none none none none (some "5") (some "20")
      5 20 hl ho⟩

/-- C5: a request whose `apikey` parameter is absent or differs from the
configured key is rejected before any dispatch with the error document
`code 100, "Invalid API key"`, regardless of every other parameter. -/
theorem invalid_api_key_rejected (cfg : Config) (fs : Fs) (req : Request)
    (h : req.apikey ≠ some cfg.api_key) :
    api cfg fs req = .errorDoc 100 "Invalid API key" := by
  have hv : verify_api_key cfg req.apikey = false := by
    unfold verify_api_key
    cases ha : req.apikey with
    | none => rfl
    | some s =>
      have hs : s ≠ cfg.api_key := fun hse => h (by rw [ha, hse])
      simp [hs]
  unfold api
  rw [hv]
  rfl

theorem invalid_api_key_rejected_witness :
    ((some "wrong" : Option String) ≠ some cfgEx.api_key)
    ∧ api cfgEx fsEx (mkReq (some "wrong") (some "search") (some "foo")
        (some "2000") (some "1") (some "0") (some "x")) =
      .errorDoc 100 "Invalid API key" := by
  have h : (some "wrong" : Option String) ≠ some cfgEx.api_key := by decide
  exact ⟨h, invalid_api_key_rejected cfgEx fsEx _ h⟩

/-- C6 (counterexample): with a valid key, `t=search` and `limit=abc`,
the conversion `int('abc')` on line 195 raises an uncaught `ValueError`;
the caller receives the framework's generic server fault, not a
structured XML error document with one of the fixed numeric codes. -/
theorem nonnumeric_limit_counterexample :
    api cfgEx fsEx (mkReq (some "mock_api_key") (some "search") none none
      (some "abc") none none) =
      .fault "invalid literal for int() with base 10: 'abc'"
    ∧ isErrorDoc (api cfgEx fsEx (mkReq (some "mock_api_key") (some "search")
        none none (some "abc") none none)) = false :=
  ⟨rfl, rfl⟩

/-- C6 (amended): a present but non-numeric `limit` (or, with a parseable
`limit`, a non-numeric `offset`) on a search-type request is never
silently defaulted: the `ValueError` from `int(...)` escapes the handler
as an uncaught exception — a generic server fault carrying the
interpreter's message — and no structured error document is produced. -/
theorem nonnumeric_pagination_fault (cfg : Config) (fs : Fs) (req : Request)
    (hk : verify_api_key cfg req.apikey = true)
    (ht : req.t.getD "" = "search" ∨ req.t.getD "" = "tvsearch" ∨
      req.t.getD "" = "movie") :
    (∀ s e, req.limit = some s → pyInt s = .error e →
      api cfg fs req = .fault e ∧ isErrorDoc (api cfg fs req) = false)
    ∧ (∀ l s e, parseIntParam req.limit 100 = .ok l → req.offset = some s →
        pyInt s = .error e →
        api cfg fs req = .fault e ∧ isErrorDoc (api cfg fs req) = false) := by
  have hdis : api cfg fs req = handle_search cfg req := by
    unfold api
    rcases ht with h | h | h <;> simp [hk, h]
  constructor
  · intro s e hs he
    have hres : handle_search cfg req = .fault e := by
      simp only [handle_search, hs, parseIntParam, he]
    rw [hdis, hres]
    exact ⟨rfl, rfl⟩
  · intro l s e hl hos he
    have hres : handle_search cfg req = .fault e := by
      unfold handle_search
      rw [hl]
      simp only [hos, parseIntParam, he]
    rw [hdis, hres]
    exact ⟨rfl, rfl⟩

theorem nonnumeric_pagination_fault_witness :
    (verify_api_key cfgEx reqBadOffset.apikey = true
      ∧ (reqBadOffset.t.getD "" = "search"
          ∨ reqBadOffset.t.getD "" = "tvsearch"
          ∨ reqBadOffset.t.getD "" = "movie"))
    ∧ ((∀ s e, reqBadOffset.limit = some s → pyInt s = .error e →
          api cfgEx fsEx reqBadOffset = .fault e
            ∧ isErrorDoc (api cfgEx fsEx reqBadOffset) = false)
      ∧ (∀ l s e, parseIntParam reqBadOffset.limit 100 = .ok l →
          reqBadOffset.offset = some s → pyInt s = .error e →
          api cfgEx fsEx reqBadOffset = .fault e
            ∧ isErrorDoc (api cfgEx fsEx reqBadOffset) = false)) := by
  have hk : verify_api_key cfgEx reqBadOffset.apikey = true := by rfl
  have ht : reqBadOffset.t.getD "" = "search"
      ∨ reqBadOffset.t.getD "" = "tvsearch"
      ∨ reqBadOffset.t.getD "" = "movie" := Or.inr (Or.inl rfl)
  exact ⟨⟨hk, ht⟩, nonnumeric_pagination_fault cfgEx fsEx reqBadOffset hk ht⟩

/-- C7: the retrieval handler's error ladder, behind a valid key and
`t=get`: a missing `id` yields code 200 `"No NZB ID specified"`; a
non-empty `id` matching no catalog entry's computed identifier yields
code 300 `"NZB with ID {id} not found"`; an `id` resolving to an entry
(with the non-empty filename the source's truthiness test presumes)
whose file is absent from the configured directory yields code 300
`"NZB file {filename} not found on disk"`; an I/O failure while reading
yields code 900 with the underlying message; and the handler always
produces exactly one outcome — a served file or a single error document,
never an uncaught fault. -/
theorem retrieval_errors (cfg : Config) (fs : Fs) (req : Request)
    (hk : verify_api_key cfg req.apikey = true)
    (ht : req.t.getD "" = "get") :
    (req.id = none → api cfg fs req = .errorDoc 200 "No NZB ID specified")
    ∧ (∀ i, req.id = some i → i ≠ "" →
        (∀ e ∈ cfg.nzbs_data, get_guid_from_filename e.filename ≠ i) →
        api cfg fs req = .errorDoc 300 ("NZB with ID " ++ i ++ " not found"))
    ∧ (∀ i f, req.id = some i → i ≠ "" →
        find_nzb_filename cfg.nzbs_data i = some f → f ≠ "" →
        fs.isfile (pyPathJoin cfg.nzb_path f) = false →
        api cfg fs req =
          .errorDoc 300 ("NZB file " ++ f ++ " not found on disk"))
    ∧ (∀ i f e, req.id = some i → i ≠ "" →
        find_nzb_filename cfg.nzbs_data i = some f → f ≠ "" →
        fs.isfile (pyPathJoin cfg.nzb_path f) = true →
        fs.readFile (pyPathJoin cfg.nzb_path f) = .error e →
        api cfg fs req = .errorDoc 900 ("Error reading NZB file: " ++ e))
    ∧ ((∃ f, api cfg fs req = .fileDoc f)
        ∨ ∃ c m, api cfg fs req = .errorDoc c m) := by
  have hdis : api cfg fs req = handle_get cfg fs req := by
    unfold api
    simp [hk, ht]
  refine ⟨?_, ?_, ?_, ?_, ?_⟩
  · intro h
    rw [hdis]
    simp [handle_get, h]
  · intro i hi hne hall
    rw [hdis]
    simp [handle_get, hi, hne, find_nzb_filename_eq_none cfg.nzbs_data i hall]
  · intro i f hi hne hfind hf hisfile
    rw [hdis]
    simp [handle_get, hi, hne, hfind, hf, hisfile]
  · intro i f e hi hne hfind hf hisfile hread
    rw [hdis]
    simp [handle_get, hi, hne, hfind, hf, hisfile, hread]
  · rw [hdis]
    unfold handle_get
    by_cases h0 : (req.id.getD "" == "") = true
    · rw [if_pos h0]
      exact Or.inr ⟨200, _, rfl⟩
    · rw [if_neg h0]
      rcases hfind : find_nzb_filename cfg.nzbs_data (req.id.getD "") with _ | f
      · simp only [hfind]
        exact Or.inr ⟨300, _, rfl⟩
      · simp only [hfind]
        by_cases hf0 : (f == "") = true
        · rw [if_pos hf0]
          exact Or.inr ⟨300, _, rfl⟩
        · rw [if_neg hf0]
          by_cases hisf : fs.isfile (pyPathJoin cfg.nzb_path f) = true
          · simp only [hisf, Bool.not_true, Bool.false_eq_true, if_false]
            rcases hread : fs.readFile (pyPathJoin cfg.nzb_path f) with e | v
            · simp only [hread]
              exact Or.inr ⟨900, _, rfl⟩
            · simp only [hread]
              exact Or.inl ⟨f, rfl⟩
          · simp only [Bool.not_eq_true] at hisf
            simp only [hisf, Bool.not_false, if_true]
            exact Or.inr ⟨300, _, rfl⟩

theorem retrieval_errors_witness :
    (verify_api_key cfgEx reqGetEx.apikey = true
      ∧ reqGetEx.t.getD "" = "get")
    ∧ ((reqGetEx.id = none →
          api cfgEx fsEx reqGetEx = .errorDoc 200 "No NZB ID specified")
      ∧ (∀ i, reqGetEx.id = some i → i ≠ "" →
          (∀ e ∈ cfgEx.nzbs_data, get_guid_from_filename e.filename ≠ i) →
          api cfgEx fsEx reqGetEx =
            .errorDoc 300 ("NZB with ID " ++ i ++ " not found"))
      ∧ (∀ i f, reqGetEx.id = some i → i ≠ "" →
          find_nzb_filename cfgEx.nzbs_data i = some f → f ≠ "" →
          fsEx.isfile (pyPathJoin cfgEx.nzb_path f) = false →
          api cfgEx fsEx reqGetEx =
            .errorDoc 300 ("NZB file " ++ f ++ " not found on disk"))
      ∧ (∀ i f e, reqGetEx.id = some i → i ≠ "" →
          find_nzb_filename cfgEx.nzbs_data i = some f → f ≠ "" →
          fsEx.isfile (pyPathJoin cfgEx.nzb_path f) = true →
          fsEx.readFile (pyPathJoin cfgEx.nzb_path f) = .error e →
          api cfgEx fsEx reqGetEx =
            .errorDoc 900 ("Error reading NZB file: " ++ e))
      ∧ ((∃ f, api cfgEx fsEx reqGetEx = .fileDoc f)
          ∨ ∃ c m, api cfgEx fsEx reqGetEx = .errorDoc c m)) := by
  have hk : verify_api_key cfgEx reqGetEx.apikey = true := by rfl
  have ht : reqGetEx.t.getD "" = "get" := by rfl
  exact ⟨⟨hk, ht⟩, retrieval_errors cfgEx fsEx reqGetEx hk ht⟩

/-- C8: an authenticated request whose operation `t` is none of
`search`, `tvsearch`, `movie` or `get` receives the error document with
code 203 and the literal operation name embedded in the message. -/
theorem unsupported_operation (cfg : Config) (fs : Fs) (req : Request)
    (t : String)
    (hk : verify_api_key cfg req.apikey = true)
    (ht : req.t.getD "" = t)
    (h1 : t ≠ "search") (h2 : t ≠ "tvsearch") (h3 : t ≠ "movie")
    (h4 : t ≠ "get") :
    api cfg fs req = .errorDoc 203 ("Function not available: " ++ t) := by
  unfold api
  simp [hk, ht, h1, h2, h3, h4]

theorem unsupported_operation_witness :
    (verify_api_key cfgEx (some "mock_api_key") = true
      ∧ (some "foo" : Option String).getD "" = "foo"
      ∧ "foo" ≠ "search" ∧ "foo" ≠ "tvsearch" ∧ "foo" ≠ "movie"
      ∧ "foo" ≠ "get")
    ∧ api cfgEx fsEx (mkReq (some "mock_api_key") (some "foo") none none none
        none none) = .errorDoc 203 ("Function not available: " ++ "foo") := by
  refine ⟨⟨by rfl, by rfl, by decide, by decide, by decide, by decide⟩, ?_⟩
  exact unsupported_operation cfgEx fsEx _ "foo" (by rfl) (by rfl)
    (by decide) (by decide) (by decide) (by decide)

/-- C9: the matched sequence of `handle_search` is an order-preserving
subsequence of the catalog (a filter, hence stable), and with a
non-empty `cat` parameter an entry passes the category filter iff at
least one of its own category id strings occurs verbatim in the
comma-split requested list; an empty (or absent, defaulting to empty)
`cat` applies no category filter. -/
theorem matcher_spec (cfg : Config) (q cat : String) (item : Item) :
    (search_matches cfg q cat).Sublist cfg.nzbs_data
    ∧ (cat ≠ "" → (category_matches cat item = true ↔
        ∃ c ∈ item.categories, c ∈ pySplitComma cat))
    ∧ (cat = "" → category_matches cat item = true) := by
  refine ⟨List.filter_sublist _, ?_, ?_⟩
  · intro hc
    unfold category_matches
    rw [if_pos (by simpa using hc)]
    simp [List.any_eq_true, List.elem_iff]
  · intro hc
    subst hc
    rfl

theorem matcher_spec_witness :
    (search_matches cfgEx "show" "5000,6000").Sublist cfgEx.nzbs_data
    ∧ ("5000,6000" ≠ "" → (category_matches "5000,6000" itemA = true ↔
        ∃ c ∈ itemA.categories, c ∈ pySplitComma "5000,6000"))
    ∧ ("5000,6000" = "" → category_matches "5000,6000" itemA = true) :=
  matcher_spec cfgEx "show" "5000,6000" itemA

/-- C10: when the configured API key is the empty string every request is
rejected with code 100, even one whose `apikey` parameter is exactly the
empty string and therefore exactly equal to the configured key: the
truthiness test in `verify_api_key` fires before the equality test. -/
theorem empty_config_key_rejects_all (cfg : Config) (fs : Fs) (req : Request)
    (h : cfg.api_key = "") :
    api cfg fs req = .errorDoc 100 "Invalid API key" := by
  have hv : verify_api_key cfg req.apikey = false := by
    unfold verify_api_key
    cases req.apikey with
    | none => rfl
    | some s =>
      by_cases hs : s = ""
      · simp [hs]
      · simp [hs, h]
  unfold api
  rw [hv]
  rfl

theorem empty_config_key_rejects_all_witness :
    cfgEmptyKey.api_key = ""
    ∧ api cfgEmptyKey fsEx (mkReq (some "") (some "search") none none none
        none none) = .errorDoc 100 "Invalid API key" :=
  ⟨rfl, empty_config_key_rejects_all cfgEmptyKey fsEx _ rfl⟩

end NewznabMock
